import Mathlib

/-!
# A verification development for the simple C++ HTTP server (`main.cpp`)

The class `SimpleHttpServer` is embedded shallowly: `std::string` is a list of
bytes, the route table is an association list, the clock and the socket are
explicit inputs, and the effects of `handleClient` (console output, `send`,
`close`) are returned as a trace of events.
-/

namespace SimpleHttpServer

/-! ## Byte strings -/

/-- A `std::string`: a finite sequence of bytes. -/
abbrev ByteString := List UInt8

/-- The bytes of a string literal of the source file, which is UTF-8 encoded. -/
def utf8 (s : String) : ByteString := s.data.flatMap String.utf8EncodeChar

/-- Carriage return. -/
abbrev CR : UInt8 := 13

/-- Line feed. -/
abbrev LF : UInt8 := 10

/-- The byte of the decimal digit `d`. -/
def digitChar (d : Nat) : UInt8 := UInt8.ofNat (48 + d)

/-- Digit generation loop of the decimal formatter, most significant digit
first; `fuel` bounds the number of digits. -/
def toDecimalCore : Nat → Nat → ByteString → ByteString
  | 0, _, acc => acc
  | fuel + 1, n, acc =>
    if n / 10 = 0 then digitChar (n % 10) :: acc
    else toDecimalCore fuel (n / 10) (digitChar (n % 10) :: acc)

/-- Decimal rendering of an unsigned integer, as `operator<<` does for
`content.length()` (a `size_t`) in the classic locale. -/
def natToString (n : Nat) : ByteString := toDecimalCore (n + 1) n []

/-- The function `std::to_string` on a signed integer: a minus sign for negative
values, then the decimal digits of the magnitude. -/
def to_string (t : Int) : ByteString :=
  if t < 0 then utf8 "-" ++ natToString t.natAbs else natToString t.natAbs

/-! ## The response builder -/

/-- The method `createHttpResponse` (main.cpp, lines 40-50). The default value
`"text/html"` of `contentType` is passed explicitly by every caller here. -/
def createHttpResponse (content : ByteString) (contentType : ByteString) : ByteString :=
  utf8 "HTTP/1.1 200 OK\r\n"
    ++ (utf8 "Content-Type: " ++ contentType ++ utf8 "\r\n")
    ++ (utf8 "Content-Length: " ++ natToString content.length ++ utf8 "\r\n")
    ++ utf8 "Connection: close\r\n"
    ++ utf8 "Access-Control-Allow-Origin: *\r\n"
    ++ utf8 "\r\n"
    ++ content

/-! ## The request line parser -/

/-- The predicate `std::isspace` in the classic locale: space, `\t`, `\n`, `\v`,
`\f` and `\r`. -/
def isspace (c : UInt8) : Bool :=
  c == 32 || c == 9 || c == 10 || c == 11 || c == 12 || c == 13

/-- The state of a `std::istringstream`: the characters not yet read and the
two state bits that formatted input can set. -/
structure IStringStream where
  /-- Characters not yet consumed. -/
  buf : ByteString
  /-- The bit `eofbit`. -/
  eof : Bool
  /-- The bit `failbit`. -/
  fail : Bool

/-- The test `good()`: no state bit is set. -/
def IStringStream.good (iss : IStringStream) : Bool := !iss.eof && !iss.fail

/-- An input stream over a string, as constructed by `std::istringstream iss(request)`. -/
def IStringStream.ofString (s : ByteString) : IStringStream := ⟨s, false, false⟩

/-- The extraction `iss >> str` for a `std::string`. The sentry fails when the
stream is not good, or when skipping leading whitespace reaches the end of the
input; in both cases `failbit` is set and `str` keeps its old value. Otherwise
`str` is replaced by the characters up to the next whitespace or the end of the
input, and reaching the end sets `eofbit`. -/
def extract (iss : IStringStream) (str : ByteString) : IStringStream × ByteString :=
  if !iss.good then (⟨iss.buf, iss.eof, true⟩, str)
  else
    match iss.buf.dropWhile isspace with
    | [] => (⟨[], true, true⟩, str)
    | c :: cs =>
      let word := (c :: cs).takeWhile (fun b => !isspace b)
      let rest := (c :: cs).dropWhile (fun b => !isspace b)
      (⟨rest, rest.isEmpty, false⟩, word)

/-- The method `parseUrl` (main.cpp, lines 33-38): three extractions into
default-constructed (empty) strings; the second one is returned. -/
def parseUrl (request : ByteString) : ByteString :=
  let iss := IStringStream.ofString request
  let (iss, _method) := extract iss []
  let (iss, url) := extract iss []
  let (_, _version) := extract iss []
  url

/-! ## The static pages -/

/-- Text of the raw string literal returned by the handler of `/` (main.cpp, lines 91-154). -/
def homePageText : String := String.join [
    "\n",
    "<!DOCTYPE html>\n",
    "<html>\n",
    "<head>\n",
    "    <title>Simple C++ HTTP Server</title>\n",
    "    <style>\n",
    "        body \x7b font-family: Arial, sans-serif; margin: 40px; background: #f5f5f5; \x7d\n",
    "        .container \x7b background: white; padding: 30px; border-radius: 10px; box-shadow: 0 2px 10px rgba(0,0,0,0.1); \x7d\n",
    "        h1 \x7b color: #333; border-bottom: 3px solid #007acc; padding-bottom: 10px; \x7d\n",
    "        .endpoint \x7b background: #f8f9fa; padding: 15px; margin: 10px 0; border-radius: 5px; border-left: 4px solid #007acc; \x7d\n",
    "        a \x7b color: #007acc; text-decoration: none; font-weight: bold; \x7d\n",
    "        a:hover \x7b text-decoration: underline; \x7d\n",
    "        .success \x7b color: #28a745; \x7d\n",
    "    </style>\n",
    "</head>\n",
    "<body>\n",
    "    <div class=\"container\">\n",
    "        <h1>🚀 Simple C++ HTTP Server</h1>\n",
    "        <p class=\"success\">✅ Server is running successfully!</p>\n",
    "        <p>This is a <strong>fully working HTTP server</strong> written in C++ from scratch.</p>\n",
    "        \n",
    "        <h2>Available Endpoints:</h2>\n",
    "        \n",
    "        <div class=\"endpoint\">\n",
    "            <strong>🏠 <a href=\"/\">Home Page</a></strong><br>\n",
    "            <code>GET /</code> - This page you\x27re viewing now\n",
    "        </div>\n",
    "        \n",
    "        <div class=\"endpoint\">\n",
    "            <strong>❤️ <a href=\"/api/health\">Health Check</a></strong><br>\n",
    "            <code>GET /api/health</code> - JSON health status\n",
    "        </div>\n",
    "        \n",
    "        <div class=\"endpoint\">\n",
    "            <strong>👤 <a href=\"/api/user/123\">User API</a></strong><br>\n",
    "            <code>GET /api/user/123</code> - Get user information (try different numbers!)\n",
    "        </div>\n",
    "        \n",
    "        <div class=\"endpoint\">\n",
    "            <strong>ℹ️ <a href=\"/about\">About</a></strong><br>\n",
    "            <code>GET /about</code> - Information about this server\n",
    "        </div>\n",
    "        \n",
    "        <div class=\"endpoint\">\n",
    "            <strong>⏰ <a href=\"/time\">Current Time</a></strong><br>\n",
    "            <code>GET /time</code> - Get current server time\n",
    "        </div>\n",
    "        \n",
    "        <h2>Features Demonstrated:</h2>\n",
    "        <ul>\n",
    "            <li>✅ Socket programming in C++</li>\n",
    "            <li>✅ HTTP request parsing</li>\n",
    "            <li>✅ Multi-threaded request handling</li>\n",
    "            <li>✅ JSON API responses</li>\n",
    "            <li>✅ HTML page serving</li>\n",
    "            <li>✅ Request logging</li>\n",
    "            <li>✅ CORS headers</li>\n",
    "        </ul>\n",
    "        \n",
    "        <p><em>Check your terminal to see real-time request logs!</em></p>\n",
    "    </div>\n",
    "</body>\n",
    "</html>\n",
    "            "]

/-- Text of the raw string literal returned by the handler of `/about` (main.cpp, lines 179-218). -/
def aboutPageText : String := String.join [
    "\n",
    "<!DOCTYPE html>\n",
    "<html>\n",
    "<head>\n",
    "    <title>About - C++ HTTP Server</title>\n",
    "    <style>\n",
    "        body \x7b font-family: Arial, sans-serif; margin: 40px; background: #f5f5f5; \x7d\n",
    "        .container \x7b background: white; padding: 30px; border-radius: 10px; box-shadow: 0 2px 10px rgba(0,0,0,0.1); \x7d\n",
    "        h1 \x7b color: #333; \x7d\n",
    "        .code \x7b background: #f8f9fa; padding: 10px; border-radius: 5px; font-family: monospace; \x7d\n",
    "    </style>\n",
    "</head>\n",
    "<body>\n",
    "    <div class=\"container\">\n",
    "        <h1>📋 About This Server</h1>\n",
    "        <p>This is a <strong>simple but fully functional HTTP server</strong> written in C++ from scratch.</p>\n",
    "        \n",
    "        <h2>Technical Details:</h2>\n",
    "        <ul>\n",
    "            <li><strong>Language:</strong> C++17</li>\n",
    "            <li><strong>Socket API:</strong> POSIX sockets</li>\n",
    "            <li><strong>Threading:</strong> std::thread for concurrent handling</li>\n",
    "            <li><strong>HTTP:</strong> HTTP/1.1 protocol</li>\n",
    "            <li><strong>Features:</strong> Routing, JSON APIs, static HTML</li>\n",
    "        </ul>\n",
    "        \n",
    "        <h2>What It Demonstrates:</h2>\n",
    "        <ul>\n",
    "            <li>Low-level socket programming</li>\n",
    "            <li>HTTP protocol implementation</li>\n",
    "            <li>Multi-threaded server architecture</li>\n",
    "            <li>Modern C++ practices</li>\n",
    "            <li>Web API development</li>\n",
    "        </ul>\n",
    "        \n",
    "        <p><a href=\"/\">← Back to Home</a></p>\n",
    "    </div>\n",
    "</body>\n",
    "</html>\n",
    "            "]

/-- Text of the first raw string literal of the handler of `/time` (main.cpp, lines 223-237). -/
def timePageHead : String := String.join [
    "\n",
    "<!DOCTYPE html>\n",
    "<html>\n",
    "<head>\n",
    "    <title>Server Time</title>\n",
    "    <style>\n",
    "        body \x7b font-family: Arial, sans-serif; margin: 40px; background: #f5f5f5; text-align: center; \x7d\n",
    "        .container \x7b background: white; padding: 30px; border-radius: 10px; box-shadow: 0 2px 10px rgba(0,0,0,0.1); \x7d\n",
    "        .time \x7b font-size: 2em; color: #007acc; font-weight: bold; \x7d\n",
    "    </style>\n",
    "</head>\n",
    "<body>\n",
    "    <div class=\"container\">\n",
    "        <h1>⏰ Current Server Time</h1>\n",
    "        <div class=\"time\">"]

/-- Text of the second raw string literal of the handler of `/time` (main.cpp, lines 237-243). -/
def timePageTail : String := String.join [
    "</div>\n",
    "        <p>This page was generated dynamically by the C++ server!</p>\n",
    "        <p><a href=\"/\">← Back to Home</a></p>\n",
    "    </div>\n",
    "</body>\n",
    "</html>\n",
    "            "]

/-! ## The clock -/

/-- The readings of the system clock that one call of `handleClient` can take. -/
structure Clock where
  /-- Result of `getCurrentTime()` in the log statement (line 61): the local
  time formatted by `std::put_time` with `%Y-%m-%d %H:%M:%S`. -/
  logTime : ByteString
  /-- Result of `getCurrentTime()` inside the handler of `/time` (line 237). -/
  pageTime : ByteString
  /-- Result of `system_clock::now().time_since_epoch().count()` inside the
  handler of `/api/health` (line 159), a signed 64-bit tick count. -/
  ticks : Int

/-! ## The route table -/

/-- The type `Handler`: a function of the raw request producing a body. The
lambdas that capture `this` also read the clock. -/
abbrev Handler := Clock → ByteString → ByteString

/-- The member `routes`, a `std::map` from path to handler, as an association
list with unique keys. -/
abbrev RouteMap := List (ByteString × Handler)

/-- The lookup `routes.find(url)`; `none` stands for `routes.end()`. -/
def RouteMap.find (routes : RouteMap) (url : ByteString) : Option Handler :=
  match routes with
  | [] => none
  | (key, handler) :: others => if key = url then some handler else RouteMap.find others url

/-- The assignment `routes[key] = handler`: overwrite the entry of `key` if
there is one, insert it otherwise. -/
def RouteMap.assign (routes : RouteMap) (key : ByteString) (handler : Handler) : RouteMap :=
  match routes with
  | [] => [(key, handler)]
  | (k, h) :: others =>
    if k = key then (k, handler) :: others else (k, h) :: RouteMap.assign others key handler

/-- Handler of `/` (lines 90-155). -/
def homeHandler : Handler := fun _ _ => utf8 homePageText

/-- Handler of `/api/health` (lines 158-162). -/
def healthHandler : Handler := fun clock _ =>
  let timestamp := clock.ticks
  utf8 "\x7b\"status\":\"healthy\",\"server\":\"Simple C++ HTTP Server\",\"timestamp\":"
    ++ to_string timestamp ++ utf8 ",\"uptime\":\"running\"\x7d"

/-- Handler of `/api/user/123` (lines 165-167). -/
def user123Handler : Handler := fun _ _ =>
  utf8 "\x7b\"id\":123,\"name\":\"John Doe\",\"email\":\"john@example.com\",\"active\":true\x7d"

/-- Handler of `/api/user/456` (lines 169-171). -/
def user456Handler : Handler := fun _ _ =>
  utf8 "\x7b\"id\":456,\"name\":\"Jane Smith\",\"email\":\"jane@example.com\",\"active\":true\x7d"

/-- Handler of `/api/user/789` (lines 173-175). -/
def user789Handler : Handler := fun _ _ =>
  utf8 "\x7b\"id\":789,\"name\":\"Bob Johnson\",\"email\":\"bob@example.com\",\"active\":false\x7d"

/-- Handler of `/about` (lines 178-219). -/
def aboutHandler : Handler := fun _ _ => utf8 aboutPageText

/-- Handler of `/time` (lines 222-244). -/
def timeHandler : Handler := fun clock _ =>
  utf8 timePageHead ++ clock.pageTime ++ utf8 timePageTail

/-- The method `setupRoutes` (lines 88-245): seven assignments, in source order. -/
def setupRoutes (routes : RouteMap) : RouteMap :=
  let routes := routes.assign (utf8 "/") homeHandler
  let routes := routes.assign (utf8 "/api/health") healthHandler
  let routes := routes.assign (utf8 "/api/user/123") user123Handler
  let routes := routes.assign (utf8 "/api/user/456") user456Handler
  let routes := routes.assign (utf8 "/api/user/789") user789Handler
  let routes := routes.assign (utf8 "/about") aboutHandler
  routes.assign (utf8 "/time") timeHandler

/-- The route table of a constructed server: the constructor (lines 84-86)
calls `setupRoutes` on the empty map. -/
def routes : RouteMap := setupRoutes []

/-! ## The connection handler -/

/-- The search `s.find(pat)` of `std::string`: the position of the first
occurrence of `pat` in `s`, and `none` for `npos`. -/
def find : ByteString → ByteString → Option Nat
  | [], pat => if pat.isEmpty then some 0 else none
  | c :: cs, pat =>
    if pat.isPrefixOf (c :: cs) then some 0 else (find cs pat).map (fun i => i + 1)

/-- What the connection delivers to the single `read` call. -/
inductive Incoming where
  /-- The call fails and returns `-1`. -/
  | failure
  /-- The call succeeds; `data` are the bytes available to it (none when the
  peer has closed the connection). -/
  | bytes (data : ByteString)

/-- The system call `read(fd, buffer, count)`: at most `count` bytes are stored
at the start of the buffer; the result is the number of bytes stored, or `-1`. -/
def read (fd : Incoming) (buffer : ByteString) (count : Nat) : Int × ByteString :=
  match fd with
  | Incoming.failure => (-1, buffer)
  | Incoming.bytes data =>
    let got := data.take count
    (got.length, got ++ buffer.drop got.length)

/-- The conversion `std::string request(buffer)` from a C string: the bytes
before the first NUL. -/
def cString (buffer : ByteString) : ByteString := buffer.takeWhile (fun b => b != 0)

/-- An observable effect of `handleClient`. -/
inductive Event where
  /-- Text written to `std::cout`. -/
  | stdout (text : ByteString)
  /-- A call of `send` on the client socket with these bytes. -/
  | send (data : ByteString)
  /-- A call of `close` on the client socket. -/
  | close
  deriving DecidableEq

/-- Lines 53-54 of `handleClient`: the zero-initialised buffer of 4096 bytes
and the single `read` of at most `sizeof(buffer) - 1` bytes. Returns
`bytes_read` and the buffer after the call. -/
def receive (client_socket : Incoming) : Int × ByteString :=
  let buffer : ByteString := List.replicate 4096 0
  read client_socket buffer (4096 - 1)

/-- Lines 58-77 of `handleClient`, the body of `if (bytes_read > 0)` after the
request string has been built: parse, log, match the route, build and send. -/
def respond (routes : RouteMap) (clock : Clock) (request : ByteString) : List Event :=
  let url := parseUrl request
  let log := Event.stdout (utf8 "[" ++ clock.logTime ++ utf8 "] GET " ++ url ++ utf8 "\n")
  let html := utf8 "text/html"
  let (response_content, content_type) :=
    match routes.find url with
    | some handler =>
      (handler clock request,
        if find url (utf8 "/api/") == some 0 then utf8 "application/json" else html)
    | none =>
      (utf8 "<h1>404 - Page Not Found</h1><p>The requested URL " ++ url
        ++ utf8 " was not found.</p>", html)
  let http_response := createHttpResponse response_content content_type
  [log, Event.send http_response]

/-- The method `handleClient` (lines 52-81). -/
def handleClient (routes : RouteMap) (clock : Clock) (client_socket : Incoming) : List Event :=
  let (bytes_read, buffer) := receive client_socket
  (if bytes_read > 0 then respond routes clock (cString buffer) else []) ++ [Event.close]

/-! ## Reading requests and responses back -/

/-- Numeric value of a non-empty string of decimal digits. -/
def parseDecimal (s : ByteString) : Option Nat :=
  if s ≠ [] ∧ s.all (fun c => 48 ≤ c.toNat ∧ c.toNat ≤ 57) then
    some (s.foldl (fun acc c => 10 * acc + (c.toNat - 48)) 0)
  else none

/-- Splits a message at its first blank line, that is at the first occurrence
of CR LF CR LF: the text before it and the text after it. -/
def splitAtBlankLine : ByteString → Option (ByteString × ByteString)
  | [] => none
  | c :: cs =>
    if c = CR ∧ cs.take 3 = [LF, CR, LF] then some ([], cs.drop 3)
    else (splitAtBlankLine cs).map (fun p => (c :: p.1, p.2))

/-- Splits a text into its lines, the line terminator being CR LF. -/
def splitLines : ByteString → List ByteString
  | [] => [[]]
  | [c] => [[c]]
  | c :: d :: cs =>
    if c = CR ∧ d = LF then [] :: splitLines cs
    else (splitLines (d :: cs)).modifyHead (fun line => c :: line)

/-- Splits a header line `name: value` into name and value. -/
def splitHeader (line : ByteString) : ByteString × ByteString :=
  (line.takeWhile (fun c => c != 58), (line.dropWhile (fun c => c != 58)).drop 2)

/-- A response as a client reads it. -/
structure Response where
  /-- The first line. -/
  statusLine : ByteString
  /-- The header fields, in order, as name and value. -/
  headers : List (ByteString × ByteString)
  /-- Everything after the first blank line. -/
  body : ByteString
  deriving DecidableEq

/-- Reads a response: the header block is what precedes the first blank line. -/
def parseResponse (bytes : ByteString) : Option Response :=
  match splitAtBlankLine bytes with
  | none => none
  | some (head, body) =>
    match splitLines head with
    | [] => none
    | status :: fields => some ⟨status, fields.map splitHeader, body⟩

/-- Value of the first header field called `name`. -/
def Response.header (r : Response) (name : ByteString) : Option ByteString :=
  (r.headers.find? (fun h => h.1 = name)).map (fun h => h.2)

/-- The header fields of a built response, as name and value. -/
def responseHeaders (content contentType : ByteString) : List (ByteString × ByteString) :=
  [(utf8 "Content-Type", contentType),
   (utf8 "Content-Length", natToString content.length),
   (utf8 "Connection", utf8 "close"),
   (utf8 "Access-Control-Allow-Origin", utf8 "*")]

/-- The header block of a built response: the status line and the four header
lines, joined by CR LF, without the final line terminator. -/
def headerBlock (content contentType : ByteString) : ByteString :=
  utf8 "HTTP/1.1 200 OK\r\nContent-Type: " ++ contentType
    ++ utf8 "\r\nContent-Length: " ++ natToString content.length
    ++ utf8 "\r\nConnection: close\r\nAccess-Control-Allow-Origin: *"

/-- The whitespace-separated fields of a text: the non-empty pieces between
whitespace characters. -/
def fields (s : ByteString) : List ByteString :=
  (s.splitOnP isspace).filter (fun w => !w.isEmpty)

/-- The first line of a text: what stands before the first line feed. -/
def firstLine (s : ByteString) : ByteString := s.takeWhile (fun c => c != LF)

/-- The paths that `setupRoutes` registers. -/
def registeredPaths : List ByteString :=
  [utf8 "/", utf8 "/about", utf8 "/time", utf8 "/api/health", utf8 "/api/user/123",
    utf8 "/api/user/456", utf8 "/api/user/789"]

/-- The request string that `handleClient` builds from the buffer (line 57). -/
def requestOf (client_socket : Incoming) : ByteString := cString (receive client_socket).2

/-- The body sent for a path that matches no route (line 73). -/
def notFoundBody (url : ByteString) : ByteString :=
  utf8 "<h1>404 - Page Not Found</h1><p>The requested URL " ++ url ++ utf8 " was not found.</p>"

/-- The line written to the console for a handled request (line 61). -/
def logLine (clock : Clock) (url : ByteString) : ByteString :=
  utf8 "[" ++ clock.logTime ++ utf8 "] GET " ++ url ++ utf8 "\n"

/-- The request `GET P HTTP/1.1` for a path `P`. -/
def getRequest (P : ByteString) : ByteString := utf8 "GET " ++ P ++ utf8 " HTTP/1.1"

/-- The content type that the interface table gives for a registered path:
`application/json` for the four paths under `/api/`, `text/html` otherwise. -/
def tableContentType (P : ByteString) : ByteString :=
  if P ∈ [utf8 "/api/health", utf8 "/api/user/123", utf8 "/api/user/456", utf8 "/api/user/789"]
  then utf8 "application/json" else utf8 "text/html"

/-- The body of the health check for the clock reading `t`, as the interface
describes it. -/
def healthBody (t : Int) : ByteString :=
  utf8 "\x7b\"status\":\"healthy\",\"server\":\"Simple C++ HTTP Server\",\"timestamp\":"
    ++ to_string t ++ utf8 ",\"uptime\":\"running\"\x7d"

/-- The text of the `timestamp` field of a health body: what stands between
the key, which is the third of the object, and the next comma. -/
def timestampField (body : ByteString) : ByteString :=
  (body.drop
    (utf8 "\x7b\"status\":\"healthy\",\"server\":\"Simple C++ HTTP Server\",\"timestamp\":").length
    ).takeWhile (fun c => c != 44)

/-- Whether a text is a positive integer in decimal notation. -/
def isPositiveInteger (s : ByteString) : Bool :=
  match parseDecimal s with
  | some n => decide (0 < n)
  | none => false

/-- A clock on 30 October 2026, with nanosecond ticks. -/
def sampleClock : Clock :=
  ⟨utf8 "2026-10-30 12:00:00", utf8 "2026-10-30 12:00:01", 1793361600123456789⟩

/-- A clock that stands at the epoch. -/
def epochClock : Clock := ⟨utf8 "1970-01-01 00:00:00", utf8 "1970-01-01 00:00:00", 0⟩

/-- The content type that `handleClient` selects for a parsed path:
`application/json` for a registered path with the prefix `/api/`, and
`text/html` for every other path. -/
def contentTypeFor (url : ByteString) : ByteString :=
  if url ∈ registeredPaths ∧ (utf8 "/api/").isPrefixOf url = true then utf8 "application/json"
  else utf8 "text/html"

/-! ## Decimal rendering -/

theorem digitChar_toNat (d : Nat) (h : d < 10) : (digitChar d).toNat = 48 + d := by
  unfold digitChar
  simp [UInt8.toNat, UInt8.ofNat, Fin.ofNat]
  omega

theorem toDecimalCore_eq (fuel : Nat) : ∀ (n : Nat) (acc : ByteString), 0 < n → n < fuel →
    toDecimalCore fuel n acc = ((Nat.digits 10 n).reverse.map digitChar) ++ acc := by
  induction fuel with
  | zero => intro n acc _ h; omega
  | succ fuel ih =>
    intro n acc hpos hlt
    unfold toDecimalCore
    split
    · rename_i h
      have hn : n < 10 := by omega
      have : n % 10 = n := Nat.mod_eq_of_lt hn
      rw [Nat.digits_of_lt 10 n (by omega) hn, this]
      simp
    · rename_i h
      rw [ih (n / 10) _ (by omega) (by omega)]
      conv_rhs => rw [Nat.digits_def' (by norm_num : 1 < 10) hpos]
      simp

/-- The decimal rendering is the digit string of `Nat.digits`, most significant first. -/
theorem natToString_eq (n : Nat) (h : 0 < n) :
    natToString n = (Nat.digits 10 n).reverse.map digitChar := by
  unfold natToString
  rw [toDecimalCore_eq (n + 1) n [] h (by omega)]
  simp

theorem natToString_zero : natToString 0 = [digitChar 0] := by decide

/-- Every byte of a decimal rendering is a digit. -/
theorem natToString_digits (n : Nat) : ∀ c ∈ natToString n, 48 ≤ c.toNat ∧ c.toNat ≤ 57 := by
  intro c hc
  rcases Nat.eq_zero_or_pos n with h0 | hpos
  · subst h0
    rw [natToString_zero] at hc
    simp at hc
    subst hc
    decide
  · rw [natToString_eq n hpos] at hc
    simp only [List.mem_map, List.mem_reverse] at hc
    obtain ⟨d, hd, rfl⟩ := hc
    have hlt : d < 10 := Nat.digits_lt_base (by norm_num) hd
    rw [digitChar_toNat d hlt]
    omega

theorem natToString_ne_nil (n : Nat) : natToString n ≠ [] := by
  rcases Nat.eq_zero_or_pos n with h0 | hpos
  · subst h0; decide
  · rw [natToString_eq n hpos]
    simp [Nat.digits_ne_nil_iff_ne_zero]
    omega

theorem foldl_digitChar (ds : List Nat) (h : ∀ d ∈ ds, d < 10) :
    (ds.reverse.map digitChar).foldl (fun acc c => 10 * acc + (c.toNat - 48)) 0
      = Nat.ofDigits 10 ds := by
  induction ds with
  | nil => simp
  | cons d ds ih =>
    have hd : d < 10 := h d (List.mem_cons_self d ds)
    have ih2 := ih (fun x hx => h x (List.mem_cons_of_mem d hx))
    simp only [List.reverse_cons, List.map_append, List.map_cons, List.map_nil,
      List.foldl_append, List.foldl_cons, List.foldl_nil, ih2, digitChar_toNat d hd,
      Nat.ofDigits_cons]
    simp
    omega

/-- Reading back a decimal rendering gives the number rendered. -/
theorem parseDecimal_natToString (n : Nat) : parseDecimal (natToString n) = some n := by
  unfold parseDecimal
  have hall : (natToString n).all (fun c => 48 ≤ c.toNat ∧ c.toNat ≤ 57) = true := by
    rw [List.all_eq_true]
    intro c hc
    have := natToString_digits n c hc
    simpa using this
  rw [if_pos ⟨natToString_ne_nil n, hall⟩]
  rcases Nat.eq_zero_or_pos n with h0 | hpos
  · subst h0; decide
  · rw [natToString_eq n hpos,
      foldl_digitChar _ (fun d hd => Nat.digits_lt_base (by norm_num) hd),
      Nat.ofDigits_digits]

/-! ## Splitting a response -/

theorem splitAtBlankLine_append (l rest : ByteString) (h : CR ∉ l) :
    splitAtBlankLine (l ++ rest)
      = (splitAtBlankLine rest).map (fun p => (l ++ p.1, p.2)) := by
  induction l with
  | nil => simp
  | cons x l ih =>
    have hx : x ≠ CR := fun e => h (by simp [e])
    have hl : CR ∉ l := fun e => h (List.mem_cons_of_mem x e)
    rw [List.cons_append, splitAtBlankLine, if_neg (fun e => hx e.1), ih hl]
    cases splitAtBlankLine rest <;> rfl

theorem splitAtBlankLine_line (l rest : ByteString) (hne : l ≠ []) (h : CR ∉ l) :
    splitAtBlankLine (CR :: LF :: (l ++ rest))
      = (splitAtBlankLine rest).map (fun p => (CR :: LF :: (l ++ p.1), p.2)) := by
  cases l with
  | nil => exact absurd rfl hne
  | cons x l =>
    have hx : x ≠ CR := fun e => h (by simp [e])
    have h2 := splitAtBlankLine_append (x :: l) rest h
    have hc : ¬ (CR = CR ∧ (LF :: ((x :: l) ++ rest)).take 3 = [LF, CR, LF]) := by
      simp [hx]
    have hd : ¬ (LF = CR ∧ ((x :: l) ++ rest).take 3 = [LF, CR, LF]) := by
      intro e; exact absurd e.1 (by decide)
    rw [splitAtBlankLine, if_neg hc, splitAtBlankLine, if_neg hd, h2]
    cases splitAtBlankLine rest <;> rfl

theorem splitAtBlankLine_blank (body : ByteString) :
    splitAtBlankLine (CR :: LF :: CR :: LF :: body) = some ([], body) := by
  simp [splitAtBlankLine]

theorem splitLines_last (l : ByteString) (h : CR ∉ l) : splitLines l = [l] := by
  induction l with
  | nil => rfl
  | cons x l ih =>
    have hx : x ≠ CR := fun e => h (by simp [e])
    have hl : CR ∉ l := fun e => h (List.mem_cons_of_mem x e)
    cases l with
    | nil => rfl
    | cons y l => simp [splitLines, hx, ih hl]

theorem splitLines_line (l rest : ByteString) (h : CR ∉ l) :
    splitLines (l ++ CR :: LF :: rest) = l :: splitLines rest := by
  induction l with
  | nil => simp [splitLines]
  | cons x l ih =>
    have hx : x ≠ CR := fun e => h (by simp [e])
    have hl : CR ∉ l := fun e => h (List.mem_cons_of_mem x e)
    cases l with
    | nil => simp [splitLines, hx]
    | cons y l =>
      have ih2 := ih hl
      simp only [List.cons_append] at ih2
      simp [splitLines, hx, ih2]

theorem splitHeader_field (name value : ByteString) (h : (58 : UInt8) ∉ name) :
    splitHeader (name ++ 58 :: 32 :: value) = (name, value) := by
  unfold splitHeader
  induction name with
  | nil => simp
  | cons x l ih =>
    have hx : x ≠ 58 := fun e => h (by simp [e])
    have hb : (x != 58) = true := by simpa using hx
    have hl : (58 : UInt8) ∉ l := fun e => h (List.mem_cons_of_mem x e)
    have ih2 := ih hl
    simp only [Prod.mk.injEq] at ih2
    simp [List.takeWhile, List.dropWhile, hb, ih2.1, ih2.2]

/-! ## The shape of a built response -/

theorem createHttpResponse_lines (b c : ByteString) :
    createHttpResponse b c
      = utf8 "HTTP/1.1 200 OK" ++ CR :: LF :: ((utf8 "Content-Type" ++ 58 :: 32 :: c)
        ++ CR :: LF :: ((utf8 "Content-Length" ++ 58 :: 32 :: natToString b.length)
        ++ CR :: LF :: ((utf8 "Connection" ++ 58 :: 32 :: utf8 "close")
        ++ CR :: LF :: ((utf8 "Access-Control-Allow-Origin" ++ 58 :: 32 :: utf8 "*")
        ++ CR :: LF :: CR :: LF :: b)))) := by
  have e1 : utf8 "HTTP/1.1 200 OK\r\n" = utf8 "HTTP/1.1 200 OK" ++ [CR, LF] := by decide
  have e2 : utf8 "Content-Type: " = utf8 "Content-Type" ++ [58, 32] := by decide
  have e3 : utf8 "\r\n" = [CR, LF] := by decide
  have e4 : utf8 "Content-Length: " = utf8 "Content-Length" ++ [58, 32] := by decide
  have e5 : utf8 "Connection: close\r\n"
      = utf8 "Connection" ++ [58, 32] ++ utf8 "close" ++ [CR, LF] := by decide
  have e6 : utf8 "Access-Control-Allow-Origin: *\r\n"
      = utf8 "Access-Control-Allow-Origin" ++ [58, 32] ++ utf8 "*" ++ [CR, LF] := by decide
  unfold createHttpResponse
  rw [e1, e2, e3, e4, e5, e6]
  simp only [List.append_assoc, List.cons_append, List.nil_append]

theorem headerBlock_lines (b c : ByteString) :
    headerBlock b c
      = utf8 "HTTP/1.1 200 OK" ++ CR :: LF :: ((utf8 "Content-Type" ++ 58 :: 32 :: c)
        ++ CR :: LF :: ((utf8 "Content-Length" ++ 58 :: 32 :: natToString b.length)
        ++ CR :: LF :: ((utf8 "Connection" ++ 58 :: 32 :: utf8 "close")
        ++ CR :: LF :: (utf8 "Access-Control-Allow-Origin" ++ 58 :: 32 :: utf8 "*")))) := by
  have e1 : utf8 "HTTP/1.1 200 OK\r\nContent-Type: "
      = utf8 "HTTP/1.1 200 OK" ++ [CR, LF] ++ utf8 "Content-Type" ++ [58, 32] := by decide
  have e2 : utf8 "\r\nContent-Length: " = [CR, LF] ++ utf8 "Content-Length" ++ [58, 32] := by
    decide
  have e3 : utf8 "\r\nConnection: close\r\nAccess-Control-Allow-Origin: *"
      = [CR, LF] ++ utf8 "Connection" ++ [58, 32] ++ utf8 "close" ++ [CR, LF]
        ++ utf8 "Access-Control-Allow-Origin" ++ [58, 32] ++ utf8 "*" := by decide
  unfold headerBlock
  rw [e1, e2, e3]
  simp only [List.append_assoc, List.cons_append, List.nil_append]

/-- A built response is its header block, one blank line, and the content. -/
theorem createHttpResponse_eq (b c : ByteString) :
    createHttpResponse b c = headerBlock b c ++ utf8 "\r\n\r\n" ++ b := by
  have e : utf8 "\r\n\r\n" = [CR, LF, CR, LF] := by decide
  rw [createHttpResponse_lines, headerBlock_lines, e]
  simp only [List.append_assoc, List.cons_append, List.nil_append]

theorem natToString_no_CR (n : Nat) : CR ∉ natToString n := by
  intro h
  have := natToString_digits n CR h
  revert this
  decide

theorem not_mem_append_cons {x a b : UInt8} {l m : ByteString} (hl : x ∉ l) (ha : x ≠ a)
    (hb : x ≠ b) (hm : x ∉ m) : x ∉ l ++ a :: b :: m := by
  simp only [List.mem_append, List.mem_cons, not_or]
  exact ⟨hl, ha, hb, hm⟩

/-- The first blank line of a built response is the one that ends its header
block, provided the content type holds no carriage return. -/
theorem splitAtBlankLine_createHttpResponse (b c : ByteString) (hc : CR ∉ c) :
    splitAtBlankLine (createHttpResponse b c) = some (headerBlock b c, b) := by
  have k1 : CR ∉ utf8 "HTTP/1.1 200 OK" := by decide
  have k2 : CR ∉ utf8 "Content-Type" ++ 58 :: 32 :: c :=
    not_mem_append_cons (by decide) (by decide) (by decide) hc
  have k3 : CR ∉ utf8 "Content-Length" ++ 58 :: 32 :: natToString b.length :=
    not_mem_append_cons (by decide) (by decide) (by decide) (natToString_no_CR _)
  have k4 : CR ∉ utf8 "Connection" ++ 58 :: 32 :: utf8 "close" := by decide
  have k5 : CR ∉ utf8 "Access-Control-Allow-Origin" ++ 58 :: 32 :: utf8 "*" := by decide
  have n2 : utf8 "Content-Type" ++ 58 :: 32 :: c ≠ [] := by
    intro e; have := congrArg List.length e; simp at this
  have n3 : utf8 "Content-Length" ++ 58 :: 32 :: natToString b.length ≠ [] := by
    intro e; have := congrArg List.length e; simp at this
  rw [createHttpResponse_lines, headerBlock_lines, splitAtBlankLine_append _ _ k1,
    splitAtBlankLine_line _ _ n2 k2, splitAtBlankLine_line _ _ n3 k3,
    splitAtBlankLine_line _ _ (by decide) k4, splitAtBlankLine_line _ _ (by decide) k5,
    splitAtBlankLine_blank]
  simp

/-- Reading back a built response gives the status line `HTTP/1.1 200 OK`, the
four header fields and the content. -/
theorem parseResponse_createHttpResponse (b c : ByteString) (hc : CR ∉ c) :
    parseResponse (createHttpResponse b c)
      = some ⟨utf8 "HTTP/1.1 200 OK", responseHeaders b c, b⟩ := by
  have k1 : CR ∉ utf8 "HTTP/1.1 200 OK" := by decide
  have k2 : CR ∉ utf8 "Content-Type" ++ 58 :: 32 :: c :=
    not_mem_append_cons (by decide) (by decide) (by decide) hc
  have k3 : CR ∉ utf8 "Content-Length" ++ 58 :: 32 :: natToString b.length :=
    not_mem_append_cons (by decide) (by decide) (by decide) (natToString_no_CR _)
  have k4 : CR ∉ utf8 "Connection" ++ 58 :: 32 :: utf8 "close" := by decide
  have k5 : CR ∉ utf8 "Access-Control-Allow-Origin" ++ 58 :: 32 :: utf8 "*" := by decide
  unfold parseResponse
  rw [splitAtBlankLine_createHttpResponse b c hc]
  simp only []
  rw [headerBlock_lines, splitLines_line _ _ k1, splitLines_line _ _ k2, splitLines_line _ _ k3,
    splitLines_line _ _ k4, splitLines_last _ k5]
  simp only [List.map_cons, List.map_nil, responseHeaders]
  rw [splitHeader_field _ _ (by decide), splitHeader_field _ _ (by decide),
    splitHeader_field _ _ (by decide), splitHeader_field _ _ (by decide)]

/-! ## Fields of a request -/

theorem fields_nil : fields [] = [] := by decide

theorem fields_cons_space (x : UInt8) (xs : ByteString) (h : isspace x = true) :
    fields (x :: xs) = fields xs := by
  simp [fields, List.splitOnP_cons, h]

theorem splitOnP_eq_takeWhile (p : UInt8 → Bool) (xs : ByteString) :
    xs.splitOnP p = xs.takeWhile (fun b => !p b) ::
      (match xs.dropWhile (fun b => !p b) with
        | [] => []
        | _ :: t => t.splitOnP p) := by
  induction xs with
  | nil => simp
  | cons x xs ih =>
    rw [List.splitOnP_cons]
    by_cases hx : p x = true
    · simp [hx, List.takeWhile, List.dropWhile]
    · have hx2 : p x = false := by simpa using hx
      rw [if_neg hx, ih]
      simp [hx2, List.takeWhile, List.dropWhile, List.modifyHead]

theorem dropWhile_not_head (p : UInt8 → Bool) (xs : ByteString) (w : UInt8) (t : ByteString)
    (h : xs.dropWhile (fun b => !p b) = w :: t) : p w = true := by
  have := List.head_dropWhile_not (fun b => !p b) xs (by rw [h]; simp)
  simpa [h] using this

/-- The fields of a text, computed the way successive extractions do: skip
whitespace, take a word, go on behind it. -/
theorem fields_eq (s : ByteString) :
    fields s = match s.dropWhile isspace with
      | [] => []
      | c :: cs => (c :: cs).takeWhile (fun b => !isspace b)
          :: fields ((c :: cs).dropWhile (fun b => !isspace b)) := by
  induction s with
  | nil => simp [fields_nil]
  | cons x xs ih =>
    by_cases hx : isspace x = true
    · rw [fields_cons_space x xs hx, ih]
      simp [List.dropWhile, hx]
    · have hx2 : isspace x = false := by simpa using hx
      have hd : (x :: xs).dropWhile isspace = x :: xs := by simp [List.dropWhile, hx2]
      rw [hd]
      simp only []
      have key : fields (x :: xs) = (x :: xs).takeWhile (fun b => !isspace b)
          :: (match (x :: xs).dropWhile (fun b => !isspace b) with
            | [] => []
            | _ :: t => fields t) := by
        unfold fields
        rw [splitOnP_eq_takeWhile]
        have hne : ((x :: xs).takeWhile (fun b => !isspace b)).isEmpty = false := by
          simp [List.takeWhile, hx2]
        rw [List.filter_cons]
        simp only [hne, Bool.not_false, if_true]
        congr 1
        split <;> simp_all
      rw [key]
      congr 1
      cases hD : (x :: xs).dropWhile (fun b => !isspace b) with
      | nil => simp [fields_nil]
      | cons w t =>
        have hw := dropWhile_not_head isspace (x :: xs) w t hD
        simp [fields_cons_space w t hw]

/-- One extraction takes the first field of the unread text, if there is one,
and leaves the text behind it; a stream that is not good has nothing unread. -/
theorem extract_fields (iss : IStringStream) (str : ByteString)
    (hinv : iss.good = false → iss.buf = []) :
    (extract iss str).2 = (fields iss.buf).headD str
      ∧ fields (extract iss str).1.buf = (fields iss.buf).tail
      ∧ ((extract iss str).1.good = false → (extract iss str).1.buf = []) := by
  unfold extract
  by_cases hg : iss.good = true
  · simp only [hg, Bool.not_true, Bool.false_eq_true, if_false]
    rw [fields_eq iss.buf]
    cases hD : iss.buf.dropWhile isspace with
    | nil => simp [fields_nil]
    | cons c cs =>
      simp only [List.headD_cons, List.tail_cons, true_and]
      intro hbad
      simp only [IStringStream.good, Bool.not_false, Bool.and_true, Bool.not_eq_false_eq_eq_true,
        Bool.not_eq_eq_eq_not, Bool.not_true] at hbad
      simpa using hbad
  · have hg2 : iss.good = false := by simpa using hg
    have hb := hinv hg2
    simp [hg2, hb, fields_nil]

/-- The path returned by `parseUrl` is the second whitespace-separated field of
the whole request, and the empty string when there is none. -/
theorem parseUrl_eq_fields (request : ByteString) :
    parseUrl request = (fields request).getD 1 [] := by
  have h0 : (IStringStream.ofString request).good = false →
      (IStringStream.ofString request).buf = [] := by
    intro h; simp [IStringStream.ofString, IStringStream.good] at h
  obtain ⟨_, a2, a3⟩ := extract_fields (IStringStream.ofString request) [] h0
  obtain ⟨b1, _, _⟩ := extract_fields (extract (IStringStream.ofString request) []).1 [] a3
  unfold parseUrl
  simp only []
  rw [b1, a2]
  simp only [IStringStream.ofString]
  cases fields request with
  | nil => rfl
  | cons w ws => cases ws <;> rfl

/-- The fields of a parsed path: it is a single field, without whitespace. -/
theorem fields_append_space (a b : ByteString) (w : UInt8) (hw : isspace w = true) :
    (a ++ w :: b).splitOnP isspace = a.splitOnP isspace ++ b.splitOnP isspace := by
  induction a with
  | nil => simp [List.splitOnP_cons, hw]
  | cons x a ih =>
    rw [List.cons_append, List.splitOnP_cons, List.splitOnP_cons, ih]
    by_cases hx : isspace x = true
    · simp [hx]
    · rw [if_neg hx, if_neg hx]
      cases hs : a.splitOnP isspace with
      | nil => exact absurd hs (List.splitOnP_ne_nil _ _)
      | cons y ys => rfl

theorem fields_firstLine (request : ByteString) :
    ∃ more, fields request = fields (firstLine request) ++ more := by
  have hsplit := List.takeWhile_append_dropWhile (fun c => c != LF) request
  cases hD : request.dropWhile (fun c => c != LF) with
  | nil =>
    rw [hD, List.append_nil] at hsplit
    exact ⟨[], by rw [firstLine, hsplit, List.append_nil]⟩
  | cons w t =>
    have hw : (w != LF) = false := by
      have := List.head_dropWhile_not (fun c => c != LF) request (by rw [hD]; simp)
      simpa [hD] using this
    have hw2 : w = LF := by simpa using hw
    subst hw2
    refine ⟨fields t, ?_⟩
    rw [hD] at hsplit
    conv_lhs => rw [← hsplit]
    unfold fields firstLine
    rw [fields_append_space _ _ LF (by decide), List.filter_append]

/-! ## The route table of the server -/

/-- The route table after construction, entry by entry. -/
theorem routes_eq : routes =
    [(utf8 "/", homeHandler), (utf8 "/api/health", healthHandler),
      (utf8 "/api/user/123", user123Handler), (utf8 "/api/user/456", user456Handler),
      (utf8 "/api/user/789", user789Handler), (utf8 "/about", aboutHandler),
      (utf8 "/time", timeHandler)] := by
  rfl

/-- The lookup fails exactly on the paths that are not registered. -/
theorem find_eq_none_iff (u : ByteString) :
    routes.find u = none ↔ u ∉ registeredPaths := by
  rw [routes_eq]
  simp only [RouteMap.find, registeredPaths, List.mem_cons, List.mem_singleton, not_or,
    List.not_mem_nil, or_false]
  constructor
  · intro h
    repeat' split at h
    all_goals first | exact (Option.some_ne_none _ h).elim | skip
    rename_i h1 h2 h3 h4 h5 h6 h7
    exact ⟨Ne.symm h1, Ne.symm h6, Ne.symm h7, Ne.symm h2, Ne.symm h3, Ne.symm h4, Ne.symm h5⟩
  · rintro ⟨h1, h6, h7, h2, h3, h4, h5⟩
    rw [if_neg (Ne.symm h1), if_neg (Ne.symm h2), if_neg (Ne.symm h3), if_neg (Ne.symm h4),
      if_neg (Ne.symm h5), if_neg (Ne.symm h6), if_neg (Ne.symm h7)]

/-- Every registered handler ignores the request it is given. -/
theorem handler_ignores_request (u : ByteString) (handler : Handler)
    (h : routes.find u = some handler) (clock : Clock) (r1 r2 : ByteString) :
    handler clock r1 = handler clock r2 := by
  rw [routes_eq] at h
  simp only [RouteMap.find] at h
  repeat' split at h
  all_goals first | (cases h; rfl) | exact (Option.some_ne_none _ h.symm).elim

/-! ## The connection handler -/

theorem receive_failure : receive Incoming.failure = (-1, List.replicate 4096 0) := rfl

theorem receive_bytes (data : ByteString) :
    receive (Incoming.bytes data)
      = (((data.take 4095).length : Int),
          data.take 4095 ++ List.replicate (4096 - (data.take 4095).length) 0) := by
  have h : receive (Incoming.bytes data)
      = (((data.take 4095).length : Int),
          data.take 4095 ++ (List.replicate 4096 0).drop (data.take 4095).length) := rfl
  rw [h, List.drop_replicate]

theorem takeWhile_append_stop (p : UInt8 → Bool) (l rest : ByteString) (x : UInt8)
    (hx : p x = false) : (l ++ x :: rest).takeWhile p = l.takeWhile p := by
  induction l with
  | nil => simp [List.takeWhile, hx]
  | cons y l ih =>
    rw [List.cons_append]
    cases hy : p y <;> simp [List.takeWhile, hy, ih]

theorem requestOf_bytes (data : ByteString) :
    requestOf (Incoming.bytes data) = (data.take 4095).takeWhile (fun b => b != 0) := by
  unfold requestOf cString
  rw [receive_bytes]
  have hlen : (data.take 4095).length ≤ 4095 := by simp [List.length_take]
  obtain ⟨k, hk⟩ : ∃ k, 4096 - (data.take 4095).length = k + 1 :=
    ⟨4095 - (data.take 4095).length, by omega⟩
  simp only [hk, List.replicate_succ]
  exact takeWhile_append_stop _ _ _ 0 (by decide)

theorem bytes_read_pos (data : ByteString) (h : data ≠ []) :
    (receive (Incoming.bytes data)).1 > 0 := by
  rw [receive_bytes]
  cases data with
  | nil => exact absurd rfl h
  | cons x xs =>
    show ((((x :: xs).take 4095).length : Nat) : Int) > 0
    have : ((x :: xs).take 4095).length = ((xs.take 4094).length) + 1 := rfl
    rw [this]
    omega

theorem handleClient_failure (routes : RouteMap) (clock : Clock) :
    handleClient routes clock Incoming.failure = [Event.close] := by
  unfold handleClient
  rw [receive_failure]
  rfl

theorem handleClient_bytes (routes : RouteMap) (clock : Clock) (data : ByteString)
    (h : data ≠ []) :
    handleClient routes clock (Incoming.bytes data)
      = respond routes clock (requestOf (Incoming.bytes data)) ++ [Event.close] := by
  have hpos := bytes_read_pos data h
  unfold handleClient requestOf
  simp only [hpos, if_true]

theorem handleClient_empty (routes : RouteMap) (clock : Clock) :
    handleClient routes clock (Incoming.bytes []) = [Event.close] := by
  unfold handleClient
  rw [receive_bytes]
  rfl

theorem find_zero_iff (s pat : ByteString) :
    (find s pat == some 0) = pat.isPrefixOf s := by
  cases s with
  | nil => cases pat <;> simp [find, List.isPrefixOf]
  | cons c cs =>
    unfold find
    by_cases hp : pat.isPrefixOf (c :: cs) = true
    · simp [hp]
    · have hp2 : pat.isPrefixOf (c :: cs) = false := eq_false_of_ne_true hp
      rw [if_neg hp, hp2]
      cases find cs pat <;> simp

theorem respond_found (clock : Clock) (request : ByteString) (handler : Handler)
    (h : routes.find (parseUrl request) = some handler) :
    respond routes clock request =
      [Event.stdout (logLine clock (parseUrl request)),
        Event.send (createHttpResponse (handler clock request)
          (if (utf8 "/api/").isPrefixOf (parseUrl request) then utf8 "application/json"
            else utf8 "text/html"))] := by
  unfold respond
  simp only [h, find_zero_iff, logLine]

theorem respond_not_found (clock : Clock) (request : ByteString)
    (h : routes.find (parseUrl request) = none) :
    respond routes clock request =
      [Event.stdout (logLine clock (parseUrl request)),
        Event.send (createHttpResponse (notFoundBody (parseUrl request)) (utf8 "text/html"))] := by
  unfold respond
  simp only [h, logLine, notFoundBody]

/-- Reading back a built response: status line, content type and body. -/
theorem parsed_createHttpResponse (b c : ByteString) (hc : CR ∉ c) :
    ∃ r, parseResponse (createHttpResponse b c) = some r
      ∧ r.statusLine = utf8 "HTTP/1.1 200 OK"
      ∧ r.header (utf8 "Content-Type") = some c
      ∧ r.body = b := by
  refine ⟨_, parseResponse_createHttpResponse b c hc, rfl, ?_, rfl⟩
  simp [Response.header, responseHeaders, List.find?]

theorem html_no_CR : CR ∉ utf8 "text/html" := by decide

theorem json_no_CR : CR ∉ utf8 "application/json" := by decide

/-- On every route table, the handled request is logged once and answered once. -/
theorem respond_shape (table : RouteMap) (clock : Clock) (request : ByteString) :
    ∃ body ctype, respond table clock request
      = [Event.stdout (logLine clock (parseUrl request)),
          Event.send (createHttpResponse body ctype)] := by
  unfold respond
  exact ⟨_, _, rfl⟩

theorem takeWhile_nul_free (l : ByteString) : (0 : UInt8) ∉ l.takeWhile (fun b => b != 0) := by
  intro h
  have := List.mem_takeWhile_imp h
  simp at this

theorem takeWhile_nul_cut (l : ByteString) :
    l = l.takeWhile (fun b => b != 0)
      ∨ ∃ rest, l = l.takeWhile (fun b => b != 0) ++ 0 :: rest := by
  have hsplit := List.takeWhile_append_dropWhile (fun b => b != 0) l
  cases hD : l.dropWhile (fun b => b != 0) with
  | nil =>
    rw [hD, List.append_nil] at hsplit
    exact Or.inl hsplit.symm
  | cons w t =>
    have hw : (w != 0) = false := by
      have := List.head_dropWhile_not (fun b => b != 0) l (by rw [hD]; simp)
      simpa [hD] using this
    have hw2 : w = 0 := by simpa using hw
    subst hw2
    rw [hD] at hsplit
    exact Or.inr ⟨t, hsplit.symm⟩

theorem receive_pos_bytes (client_socket : Incoming) (hpos : (receive client_socket).1 > 0) :
    ∃ data, data ≠ [] ∧ client_socket = Incoming.bytes data := by
  cases client_socket with
  | failure => rw [receive_failure] at hpos; exact absurd hpos (by decide)
  | bytes data =>
    refine ⟨data, ?_, rfl⟩
    rintro rfl
    rw [receive_bytes] at hpos
    exact absurd hpos (by decide)

theorem receive_nonpos (client_socket : Incoming) (h : (receive client_socket).1 ≤ 0) :
    client_socket = Incoming.failure ∨ client_socket = Incoming.bytes [] := by
  cases client_socket with
  | failure => exact Or.inl rfl
  | bytes data =>
    cases data with
    | nil => exact Or.inr rfl
    | cons x xs =>
      have := bytes_read_pos (x :: xs) (by simp)
      omega

theorem parseUrl_nil : parseUrl [] = [] := by decide

theorem find_nil : routes.find [] = none := by
  rw [find_eq_none_iff]
  decide

set_option maxRecDepth 100000 in
/-- The request `GET P HTTP/1.1` for a registered path `P` arrives whole and
its path is `P`. -/
theorem getRequest_registered (P : ByteString) (hP : P ∈ registeredPaths) :
    getRequest P ≠ []
      ∧ requestOf (Incoming.bytes (getRequest P)) = getRequest P
      ∧ parseUrl (getRequest P) = P
      ∧ (if (utf8 "/api/").isPrefixOf P then utf8 "application/json" else utf8 "text/html")
        = tableContentType P := by
  revert P
  decide

theorem find_registered (P : ByteString) (hP : P ∈ registeredPaths) :
    ∃ handler, routes.find P = some handler := by
  cases h : routes.find P with
  | none => exact absurd hP ((find_eq_none_iff P).mp h)
  | some handler => exact ⟨handler, rfl⟩

theorem tableContentType_no_CR (P : ByteString) : CR ∉ tableContentType P := by
  unfold tableContentType
  split
  · exact json_no_CR
  · exact html_no_CR

theorem contentTypeFor_no_CR (u : ByteString) : CR ∉ contentTypeFor u := by
  unfold contentTypeFor
  split
  · exact json_no_CR
  · exact html_no_CR

/-- The response to a handled request, with the content type by cases. -/
theorem respond_eq (clock : Clock) (request : ByteString) :
    ∃ body, respond routes clock request
      = [Event.stdout (logLine clock (parseUrl request)),
          Event.send (createHttpResponse body (contentTypeFor (parseUrl request)))] := by
  cases h : routes.find (parseUrl request) with
  | none =>
    have hu : parseUrl request ∉ registeredPaths := (find_eq_none_iff _).mp h
    refine ⟨notFoundBody (parseUrl request), ?_⟩
    rw [respond_not_found clock request h]
    simp [contentTypeFor, hu]
  | some handler =>
    have hu : parseUrl request ∈ registeredPaths := by
      by_contra hn
      rw [(find_eq_none_iff _).mpr hn] at h
      exact Option.noConfusion h
    refine ⟨handler clock request, ?_⟩
    rw [respond_found clock request handler h]
    simp [contentTypeFor, hu]

/-- Two requests with the same path are answered and logged alike. -/
theorem respond_congr (clock : Clock) (r1 r2 : ByteString) (hp : parseUrl r1 = parseUrl r2) :
    respond routes clock r1 = respond routes clock r2 := by
  cases h : routes.find (parseUrl r1) with
  | none =>
    rw [respond_not_found clock r1 h, respond_not_found clock r2 (hp ▸ h), hp]
  | some handler =>
    rw [respond_found clock r1 handler h, respond_found clock r2 handler (hp ▸ h), hp,
      handler_ignores_request _ handler h clock r1 r2]

theorem to_string_neg (t : Int) (h : t < 0) : to_string t = 45 :: natToString t.natAbs := by
  unfold to_string
  rw [if_pos h]
  rfl

theorem to_string_nonneg (t : Int) (h : ¬ t < 0) : to_string t = natToString t.natAbs := by
  unfold to_string
  rw [if_neg h]

theorem to_string_no_comma (t : Int) : ∀ c ∈ to_string t, (c != 44) = true := by
  intro c hc
  have hdig : ∀ n, ∀ c ∈ natToString n, (c != 44) = true := by
    intro n c hc
    have := natToString_digits n c hc
    have hne : c ≠ 44 := by
      rintro rfl
      revert this
      decide
    simpa using hne
  by_cases h : t < 0
  · rw [to_string_neg t h] at hc
    rcases List.mem_cons.mp hc with rfl | hc
    · decide
    · exact hdig _ c hc
  · rw [to_string_nonneg t h] at hc
    exact hdig _ c hc

/-- The timestamp field of a health body is the rendering of the clock reading. -/
theorem timestampField_healthBody (t : Int) : timestampField (healthBody t) = to_string t := by
  have hs : utf8 ",\"uptime\":\"running\"\x7d" = 44 :: utf8 "\"uptime\":\"running\"\x7d" := by
    decide
  unfold timestampField healthBody
  rw [List.append_assoc, List.drop_left, hs, takeWhile_append_stop _ _ _ 44 (by decide),
    List.takeWhile_eq_self_iff]
  exact to_string_no_comma t

/-- The rendering of a clock reading is a positive integer exactly when the
reading is positive. -/
theorem isPositiveInteger_to_string (t : Int) :
    isPositiveInteger (to_string t) = true ↔ 0 < t := by
  unfold isPositiveInteger
  by_cases h : t < 0
  · rw [to_string_neg t h]
    have : parseDecimal (45 :: natToString t.natAbs) = none := by
      simp [parseDecimal]
      intro h45
      exact absurd h45 (by decide)
    rw [this]
    simp
    omega
  · rw [to_string_nonneg t h, parseDecimal_natToString]
    simp
    omega

theorem extract_no_space (iss : IStringStream) (str : ByteString)
    (h : ∀ c ∈ str, isspace c = false) : ∀ c ∈ (extract iss str).2, isspace c = false := by
  unfold extract
  split
  · exact h
  · split
    · exact h
    · intro c hc
      have := List.mem_takeWhile_imp hc
      simpa using this

/-- A parsed path holds no whitespace, in particular no line break. -/
theorem parseUrl_no_space (request : ByteString) :
    ∀ c ∈ parseUrl request, isspace c = false := by
  unfold parseUrl
  exact extract_no_space _ [] (by simp)

set_option maxRecDepth 100000 in
/-- The embedded page texts have the byte lengths of the raw string literals
of the source file. -/
theorem page_lengths :
    (utf8 homePageText).length = 2459 ∧ (utf8 aboutPageText).length = 1448
      ∧ (utf8 timePageHead).length = 488 ∧ (utf8 timePageTail).length = 164 := by
  decide!

/-! ## The claims -/

/-- C1: for every body `b` and every content type `c` without CR or LF, the
built response is a header block, one blank line and `b` verbatim; the text
after the first blank line is exactly `b`, and the decimal value of the
Content-Length header is the number of bytes of `b`. -/
theorem createHttpResponse_content_length (b c : ByteString) (hCR : CR ∉ c) (_hLF : LF ∉ c) :
    createHttpResponse b c = headerBlock b c ++ utf8 "\r\n\r\n" ++ b
      ∧ splitAtBlankLine (createHttpResponse b c) = some (headerBlock b c, b)
      ∧ ∃ r, parseResponse (createHttpResponse b c) = some r
          ∧ r.statusLine = utf8 "HTTP/1.1 200 OK"
          ∧ r.body = b
          ∧ (r.header (utf8 "Content-Length")).bind parseDecimal = some b.length := by
  refine ⟨createHttpResponse_eq b c, splitAtBlankLine_createHttpResponse b c hCR,
    _, parseResponse_createHttpResponse b c hCR, rfl, rfl, ?_⟩
  have hne : ¬ utf8 "Content-Type" = utf8 "Content-Length" := by decide
  simp [Response.header, responseHeaders, List.find?, hne, parseDecimal_natToString]

set_option maxRecDepth 100000 in
/-- Witness of C1: a body of multi-byte characters that itself holds a blank line. -/
theorem createHttpResponse_content_length_witness :
    (utf8 "é\r\n\r\n🚀").length = 10
      ∧ createHttpResponse (utf8 "é\r\n\r\n🚀") (utf8 "text/html")
        = utf8 "HTTP/1.1 200 OK\r\nContent-Type: text/html\r\nContent-Length: 10\r\nConnection: close\r\nAccess-Control-Allow-Origin: *\r\n\r\né\r\n\r\n🚀"
      ∧ ∃ r, parseResponse (createHttpResponse (utf8 "é\r\n\r\n🚀") (utf8 "text/html")) = some r
          ∧ r.statusLine = utf8 "HTTP/1.1 200 OK"
          ∧ r.body = utf8 "é\r\n\r\n🚀"
          ∧ (r.header (utf8 "Content-Length")).bind parseDecimal
              = some (utf8 "é\r\n\r\n🚀").length :=
  ⟨by decide, by decide,
    (createHttpResponse_content_length (utf8 "é\r\n\r\n🚀") (utf8 "text/html")
      (by decide) (by decide)).2.2⟩

/-- C2: for every registered path `P` and every clock, handling the request
`GET P HTTP/1.1` sends a response whose status line is `HTTP/1.1 200 OK`, whose
Content-Type is `application/json` for the four paths under `/api/` and
`text/html` for `/`, `/about` and `/time`, and whose body is the output of the
handler registered for `P`. -/
theorem registered_path_served (clock : Clock) (P : ByteString) (hP : P ∈ registeredPaths) :
    ∃ handler, routes.find P = some handler
      ∧ handleClient routes clock (Incoming.bytes (utf8 "GET " ++ P ++ utf8 " HTTP/1.1"))
        = [Event.stdout (logLine clock P),
            Event.send (createHttpResponse (handler clock (utf8 "GET " ++ P ++ utf8 " HTTP/1.1"))
              (tableContentType P)),
            Event.close]
      ∧ ∃ r, parseResponse (createHttpResponse
              (handler clock (utf8 "GET " ++ P ++ utf8 " HTTP/1.1")) (tableContentType P)) = some r
          ∧ r.statusLine = utf8 "HTTP/1.1 200 OK"
          ∧ r.header (utf8 "Content-Type") = some (tableContentType P)
          ∧ r.body = handler clock (utf8 "GET " ++ P ++ utf8 " HTTP/1.1") := by
  obtain ⟨handler, hfind⟩ := find_registered P hP
  obtain ⟨hne, hreq, hurl, htype⟩ := getRequest_registered P hP
  refine ⟨handler, hfind, ?_, parsed_createHttpResponse _ _ (tableContentType_no_CR P)⟩
  show handleClient routes clock (Incoming.bytes (getRequest P)) = _
  rw [handleClient_bytes routes clock _ hne, hreq,
    respond_found clock (getRequest P) handler (by rw [hurl]; exact hfind), hurl, htype]
  rfl

/-- Witness of C2: the path `/api/user/456`, served as JSON. -/
theorem registered_path_served_witness :
    utf8 "/api/user/456" ∈ registeredPaths
      ∧ tableContentType (utf8 "/api/user/456") = utf8 "application/json"
      ∧ ∃ handler, routes.find (utf8 "/api/user/456") = some handler
        ∧ handleClient routes sampleClock
            (Incoming.bytes (utf8 "GET " ++ utf8 "/api/user/456" ++ utf8 " HTTP/1.1"))
          = [Event.stdout (logLine sampleClock (utf8 "/api/user/456")),
              Event.send (createHttpResponse
                (handler sampleClock (utf8 "GET " ++ utf8 "/api/user/456" ++ utf8 " HTTP/1.1"))
                (tableContentType (utf8 "/api/user/456"))),
              Event.close]
        ∧ ∃ r, parseResponse (createHttpResponse
                (handler sampleClock (utf8 "GET " ++ utf8 "/api/user/456" ++ utf8 " HTTP/1.1"))
                (tableContentType (utf8 "/api/user/456"))) = some r
            ∧ r.statusLine = utf8 "HTTP/1.1 200 OK"
            ∧ r.header (utf8 "Content-Type") = some (tableContentType (utf8 "/api/user/456"))
            ∧ r.body
              = handler sampleClock (utf8 "GET " ++ utf8 "/api/user/456" ++ utf8 " HTTP/1.1") :=
  ⟨by decide, by decide,
    registered_path_served sampleClock (utf8 "/api/user/456") (by decide)⟩

/-- C3: route resolution is exact string match. A registered path followed by
`?` and a query string, or by a trailing `/`, is not registered; and for every
non-empty read whose parsed path `u` is not one of the seven registered paths,
no handler is found and the response has the status line `HTTP/1.1 200 OK` and
the body `<h1>404 - Page Not Found</h1><p>The requested URL u was not found.</p>`,
which contains `404 - Page Not Found` and echoes `u`. -/
theorem unregistered_path_not_found :
    (∀ P ∈ registeredPaths, ∀ q : ByteString,
        P ++ utf8 "?" ++ q ∉ registeredPaths ∧ P ++ utf8 "/" ∉ registeredPaths)
      ∧ ∀ (clock : Clock) (data : ByteString), data ≠ [] →
        parseUrl (requestOf (Incoming.bytes data)) ∉ registeredPaths →
        routes.find (parseUrl (requestOf (Incoming.bytes data))) = none
          ∧ handleClient routes clock (Incoming.bytes data)
            = [Event.stdout (logLine clock (parseUrl (requestOf (Incoming.bytes data)))),
                Event.send (createHttpResponse
                  (utf8 "<h1>404 - Page Not Found</h1><p>The requested URL "
                    ++ parseUrl (requestOf (Incoming.bytes data)) ++ utf8 " was not found.</p>")
                  (utf8 "text/html")),
                Event.close]
          ∧ (∃ r, parseResponse (createHttpResponse
                  (utf8 "<h1>404 - Page Not Found</h1><p>The requested URL "
                    ++ parseUrl (requestOf (Incoming.bytes data)) ++ utf8 " was not found.</p>")
                  (utf8 "text/html")) = some r
              ∧ r.statusLine = utf8 "HTTP/1.1 200 OK"
              ∧ r.body = utf8 "<h1>404 - Page Not Found</h1><p>The requested URL "
                  ++ parseUrl (requestOf (Incoming.bytes data)) ++ utf8 " was not found.</p>"
              ∧ utf8 "404 - Page Not Found" <:+: r.body
              ∧ parseUrl (requestOf (Incoming.bytes data)) <:+: r.body) := by
  constructor
  · intro P hP q
    constructor
    · intro hmem
      have hq : ∀ R ∈ registeredPaths, (63 : UInt8) ∉ R := by decide
      have h63 : utf8 "?" = [63] := by decide
      apply hq _ hmem
      rw [h63]
      simp
    · revert P
      decide
  · intro clock data hdata hu
    have hfind := (find_eq_none_iff _).mpr hu
    have hresp := respond_not_found clock _ hfind
    obtain ⟨r, hr, hstatus, -, hbody⟩ := parsed_createHttpResponse
      (notFoundBody (parseUrl (requestOf (Incoming.bytes data)))) _ html_no_CR
    refine ⟨hfind, ?_, r, hr, hstatus, hbody, ?_, ?_⟩
    · rw [handleClient_bytes routes clock data hdata, hresp]
      rfl
    · rw [hbody]
      have hsplit : utf8 "<h1>404 - Page Not Found</h1><p>The requested URL "
          = utf8 "<h1>" ++ (utf8 "404 - Page Not Found" ++ utf8 "</h1><p>The requested URL ") := by
        decide
      unfold notFoundBody
      rw [hsplit]
      exact ⟨utf8 "<h1>", utf8 "</h1><p>The requested URL "
        ++ parseUrl (requestOf (Incoming.bytes data)) ++ utf8 " was not found.</p>",
        by simp only [List.append_assoc]⟩
    · rw [hbody]
      exact ⟨utf8 "<h1>404 - Page Not Found</h1><p>The requested URL ",
        utf8 " was not found.</p>", rfl⟩

set_option maxRecDepth 100000 in
/-- Witness of C3: a registered path with a query string. -/
theorem unregistered_path_not_found_witness :
    utf8 "GET /about?x=1 HTTP/1.1\r\n\r\n" ≠ []
      ∧ parseUrl (requestOf (Incoming.bytes (utf8 "GET /about?x=1 HTTP/1.1\r\n\r\n")))
        = utf8 "/about?x=1"
      ∧ utf8 "/about?x=1" ∉ registeredPaths
      ∧ handleClient routes sampleClock (Incoming.bytes (utf8 "GET /about?x=1 HTTP/1.1\r\n\r\n"))
        = [Event.stdout (logLine sampleClock
              (parseUrl (requestOf (Incoming.bytes (utf8 "GET /about?x=1 HTTP/1.1\r\n\r\n"))))),
            Event.send (createHttpResponse
              (utf8 "<h1>404 - Page Not Found</h1><p>The requested URL "
                ++ parseUrl (requestOf (Incoming.bytes (utf8 "GET /about?x=1 HTTP/1.1\r\n\r\n")))
                ++ utf8 " was not found.</p>")
              (utf8 "text/html")),
            Event.close] :=
  ⟨by decide, by decide, by decide,
    (unregistered_path_not_found.2 sampleClock (utf8 "GET /about?x=1 HTTP/1.1\r\n\r\n")
      (by decide) (by decide)).2.1⟩

/-- C4, as amended: the content type depends on the parsed path only. For
every handled request it is `application/json` if the path is a registered path
with the prefix `/api/`, and `text/html` for every other path, the unregistered
paths under `/api/` included. -/
theorem content_type_selection (clock : Clock) (data : ByteString) (hdata : data ≠ []) :
    ∃ body, handleClient routes clock (Incoming.bytes data)
        = [Event.stdout (logLine clock (parseUrl (requestOf (Incoming.bytes data)))),
            Event.send (createHttpResponse body
              (contentTypeFor (parseUrl (requestOf (Incoming.bytes data))))),
            Event.close]
      ∧ ∃ r, parseResponse (createHttpResponse body
              (contentTypeFor (parseUrl (requestOf (Incoming.bytes data))))) = some r
          ∧ r.header (utf8 "Content-Type")
            = some (contentTypeFor (parseUrl (requestOf (Incoming.bytes data)))) := by
  obtain ⟨body, hresp⟩ := respond_eq clock (requestOf (Incoming.bytes data))
  obtain ⟨r, hr, -, htype, -⟩ := parsed_createHttpResponse body _
    (contentTypeFor_no_CR (parseUrl (requestOf (Incoming.bytes data))))
  refine ⟨body, ?_, r, hr, htype⟩
  rw [handleClient_bytes routes clock data hdata, hresp]
  rfl

set_option maxRecDepth 100000 in
/-- Counterexample to C4 as stated: the path `/api/nonexistent` has the prefix
`/api/`, yet the response to it is labelled `text/html`. -/
theorem api_prefix_counterexample :
    parseUrl (requestOf (Incoming.bytes (utf8 "GET /api/nonexistent HTTP/1.1")))
        = utf8 "/api/nonexistent"
      ∧ (utf8 "/api/").isPrefixOf (utf8 "/api/nonexistent") = true
      ∧ handleClient routes sampleClock (Incoming.bytes (utf8 "GET /api/nonexistent HTTP/1.1"))
        = [Event.stdout (utf8 "[2026-10-30 12:00:00] GET /api/nonexistent\n"),
            Event.send (utf8 "HTTP/1.1 200 OK\r\nContent-Type: text/html\r\nContent-Length: 85\r\nConnection: close\r\nAccess-Control-Allow-Origin: *\r\n\r\n<h1>404 - Page Not Found</h1><p>The requested URL /api/nonexistent was not found.</p>"),
            Event.close]
      ∧ utf8 "text/html" ≠ utf8 "application/json" := by
  decide

set_option maxRecDepth 100000 in
/-- Witness of C4, as amended: a registered path under `/api/`. -/
theorem content_type_selection_witness :
    utf8 "GET /api/user/789 HTTP/1.1" ≠ []
      ∧ contentTypeFor (parseUrl (requestOf (Incoming.bytes (utf8 "GET /api/user/789 HTTP/1.1"))))
        = utf8 "application/json"
      ∧ ∃ body, handleClient routes sampleClock
            (Incoming.bytes (utf8 "GET /api/user/789 HTTP/1.1"))
          = [Event.stdout (logLine sampleClock
                (parseUrl (requestOf (Incoming.bytes (utf8 "GET /api/user/789 HTTP/1.1"))))),
              Event.send (createHttpResponse body (contentTypeFor
                (parseUrl (requestOf (Incoming.bytes (utf8 "GET /api/user/789 HTTP/1.1")))))),
              Event.close]
        ∧ ∃ r, parseResponse (createHttpResponse body (contentTypeFor
                (parseUrl (requestOf (Incoming.bytes (utf8 "GET /api/user/789 HTTP/1.1"))))))
              = some r
            ∧ r.header (utf8 "Content-Type") = some (contentTypeFor
                (parseUrl (requestOf (Incoming.bytes (utf8 "GET /api/user/789 HTTP/1.1"))))) :=
  ⟨by decide, by decide,
    content_type_selection sampleClock (utf8 "GET /api/user/789 HTTP/1.1") (by decide)⟩

/-- C5, as amended: `parseUrl` returns the second whitespace-separated field of
the whole request, a line feed being whitespace like any other, and the empty
string when the whole request has fewer than two fields; when the first line
has two fields or more, this is the second field of the first line. -/
theorem parseUrl_second_field (request : ByteString) :
    parseUrl request = (fields request).getD 1 []
      ∧ ((fields request).length < 2 → parseUrl request = [])
      ∧ (2 ≤ (fields (firstLine request)).length →
          parseUrl request = (fields (firstLine request)).getD 1 []) := by
  refine ⟨parseUrl_eq_fields request, ?_, ?_⟩
  · intro h
    rw [parseUrl_eq_fields]
    exact List.getD_eq_default _ _ (by omega)
  · intro h
    obtain ⟨more, hm⟩ := fields_firstLine request
    rw [parseUrl_eq_fields, hm, List.getD_append _ _ _ _ (by omega)]

/-- Counterexample to C5 as stated: the first line of `GET\n/about HTTP/1.1` is
`GET`, with a single field, yet `parseUrl` returns `/about` from the second
line and not the empty string. -/
theorem parseUrl_first_line_counterexample :
    firstLine (utf8 "GET\n/about HTTP/1.1") = utf8 "GET"
      ∧ (fields (firstLine (utf8 "GET\n/about HTTP/1.1"))).length < 2
      ∧ parseUrl (utf8 "GET\n/about HTTP/1.1") = utf8 "/about"
      ∧ parseUrl (utf8 "GET\n/about HTTP/1.1") ≠ [] := by
  decide

/-- Witness of C5, as amended: a request whose first line has three fields. -/
theorem parseUrl_second_field_witness :
    2 ≤ (fields (firstLine (utf8 "GET /about HTTP/1.1\r\nHost: a\r\n\r\n"))).length
      ∧ parseUrl (utf8 "GET /about HTTP/1.1\r\nHost: a\r\n\r\n")
        = (fields (firstLine (utf8 "GET /about HTTP/1.1\r\nHost: a\r\n\r\n"))).getD 1 [] :=
  ⟨by decide,
    (parseUrl_second_field (utf8 "GET /about HTTP/1.1\r\nHost: a\r\n\r\n")).2.2 (by decide)⟩

/-- C6: for every request string with fewer than two whitespace-separated
fields (the empty one included), `parseUrl` returns the empty string, the lookup
matches no route, and the response is the not-found response: status line
`HTTP/1.1 200 OK`, content type `text/html` and the not-found body with an empty
echoed path. -/
theorem short_request_not_found (clock : Clock) (request : ByteString)
    (h : (fields request).length < 2) :
    parseUrl request = []
      ∧ routes.find (parseUrl request) = none
      ∧ respond routes clock request
        = [Event.stdout (logLine clock []),
            Event.send (createHttpResponse
              (utf8 "<h1>404 - Page Not Found</h1><p>The requested URL  was not found.</p>")
              (utf8 "text/html"))]
      ∧ (∃ r, parseResponse (createHttpResponse
              (utf8 "<h1>404 - Page Not Found</h1><p>The requested URL  was not found.</p>")
              (utf8 "text/html")) = some r
          ∧ r.statusLine = utf8 "HTTP/1.1 200 OK"
          ∧ r.header (utf8 "Content-Type") = some (utf8 "text/html")
          ∧ r.body
            = utf8 "<h1>404 - Page Not Found</h1><p>The requested URL  was not found.</p>")
      ∧ ∀ data, data ≠ [] → requestOf (Incoming.bytes data) = request →
          handleClient routes clock (Incoming.bytes data)
            = [Event.stdout (logLine clock []),
                Event.send (createHttpResponse
                  (utf8 "<h1>404 - Page Not Found</h1><p>The requested URL  was not found.</p>")
                  (utf8 "text/html")),
                Event.close] := by
  have hurl : parseUrl request = [] := by
    rw [parseUrl_eq_fields]
    exact List.getD_eq_default _ _ (by omega)
  have hfind : routes.find (parseUrl request) = none := by rw [hurl]; exact find_nil
  have hbody : notFoundBody []
      = utf8 "<h1>404 - Page Not Found</h1><p>The requested URL  was not found.</p>" := by
    decide
  have hresp := respond_not_found clock request hfind
  rw [hurl, hbody] at hresp
  refine ⟨hurl, hfind, hresp, parsed_createHttpResponse _ _ html_no_CR, ?_⟩
  intro data hdata hreq
  rw [handleClient_bytes routes clock data hdata, hreq, hresp]
  rfl

set_option maxRecDepth 100000 in
/-- Witness of C6: a request that holds a method only. -/
theorem short_request_not_found_witness :
    (fields (utf8 "GET\r\n")).length < 2
      ∧ parseUrl (utf8 "GET\r\n") = []
      ∧ handleClient routes sampleClock (Incoming.bytes (utf8 "GET\r\n"))
        = [Event.stdout (utf8 "[2026-10-30 12:00:00] GET \n"),
            Event.send (createHttpResponse
              (utf8 "<h1>404 - Page Not Found</h1><p>The requested URL  was not found.</p>")
              (utf8 "text/html")),
            Event.close] :=
  ⟨by decide,
    (short_request_not_found sampleClock (utf8 "GET\r\n") (by decide)).1,
    (short_request_not_found sampleClock (utf8 "GET\r\n") (by decide)).2.2.2.2
      (utf8 "GET\r\n") (by decide) (by decide)⟩

/-- C7: taking `handleClient` as a function of the result of the read, when
`bytes_read` is zero or negative nothing is logged and nothing is sent; when it
is positive exactly one line `[<timestamp>] GET <path>` is logged, the path
holding no line break, and exactly one response is sent; in both cases the
socket is closed once, as the last effect. This holds for every route table. -/
theorem handleClient_trace (table : RouteMap) (clock : Clock) (client_socket : Incoming) :
    ((receive client_socket).1 ≤ 0 →
        handleClient table clock client_socket = [Event.close])
      ∧ ((receive client_socket).1 > 0 →
        ∃ body ctype, handleClient table clock client_socket
          = [Event.stdout (utf8 "[" ++ clock.logTime ++ utf8 "] GET "
                ++ parseUrl (requestOf client_socket) ++ utf8 "\n"),
              Event.send (createHttpResponse body ctype),
              Event.close])
      ∧ ∀ c ∈ parseUrl (requestOf client_socket), isspace c = false := by
  refine ⟨?_, ?_, parseUrl_no_space _⟩
  · intro h
    rcases receive_nonpos client_socket h with rfl | rfl
    · exact handleClient_failure table clock
    · exact handleClient_empty table clock
  · intro h
    obtain ⟨data, hdata, rfl⟩ := receive_pos_bytes client_socket h
    obtain ⟨body, ctype, hr⟩ := respond_shape table clock (requestOf (Incoming.bytes data))
    refine ⟨body, ctype, ?_⟩
    rw [handleClient_bytes table clock data hdata, hr]
    rfl

set_option maxRecDepth 100000 in
/-- Witness of C7: a failed read, an empty read and a read of one request. -/
theorem handleClient_trace_witness :
    (receive Incoming.failure).1 ≤ 0
      ∧ handleClient routes sampleClock Incoming.failure = [Event.close]
      ∧ (receive (Incoming.bytes [])).1 ≤ 0
      ∧ handleClient routes sampleClock (Incoming.bytes []) = [Event.close]
      ∧ (receive (Incoming.bytes (utf8 "GET /about HTTP/1.1\r\n\r\n"))).1 > 0
      ∧ ∃ body ctype,
          handleClient routes sampleClock (Incoming.bytes (utf8 "GET /about HTTP/1.1\r\n\r\n"))
            = [Event.stdout (utf8 "[" ++ sampleClock.logTime ++ utf8 "] GET "
                  ++ parseUrl (requestOf (Incoming.bytes (utf8 "GET /about HTTP/1.1\r\n\r\n")))
                  ++ utf8 "\n"),
                Event.send (createHttpResponse body ctype),
                Event.close] :=
  ⟨by decide,
    (handleClient_trace routes sampleClock Incoming.failure).1 (by decide),
    by decide,
    (handleClient_trace routes sampleClock (Incoming.bytes [])).1 (by decide),
    by decide,
    (handleClient_trace routes sampleClock
      (Incoming.bytes (utf8 "GET /about HTTP/1.1\r\n\r\n"))).2.1 (by decide)⟩

/-- C8, as amended: for every clock reading `t`, the body returned for
`GET /api/health HTTP/1.1` is exactly
`{"status":"healthy","server":"Simple C++ HTTP Server","timestamp":<t>,"uptime":"running"}`
with `<t>` the decimal rendering of `t`; its timestamp field is that rendering,
which is a positive integer exactly when `t` is positive. -/
theorem health_body (clock : Clock) :
    handleClient routes clock (Incoming.bytes (utf8 "GET /api/health HTTP/1.1"))
        = [Event.stdout (logLine clock (utf8 "/api/health")),
            Event.send (createHttpResponse
              (utf8 "\x7b\"status\":\"healthy\",\"server\":\"Simple C++ HTTP Server\",\"timestamp\":"
                ++ to_string clock.ticks ++ utf8 ",\"uptime\":\"running\"\x7d")
              (utf8 "application/json")),
            Event.close]
      ∧ (∃ r, parseResponse (createHttpResponse (healthBody clock.ticks)
              (utf8 "application/json")) = some r
          ∧ r.body
            = utf8 "\x7b\"status\":\"healthy\",\"server\":\"Simple C++ HTTP Server\",\"timestamp\":"
              ++ to_string clock.ticks ++ utf8 ",\"uptime\":\"running\"\x7d")
      ∧ timestampField (healthBody clock.ticks) = to_string clock.ticks
      ∧ (isPositiveInteger (timestampField (healthBody clock.ticks)) = true ↔ 0 < clock.ticks) := by
  obtain ⟨hne, hreq, hurl, -⟩ := getRequest_registered (utf8 "/api/health") (by decide)
  have hget : getRequest (utf8 "/api/health") = utf8 "GET /api/health HTTP/1.1" := by decide
  rw [hget] at hne hreq hurl
  have hfind : routes.find (parseUrl (utf8 "GET /api/health HTTP/1.1")) = some healthHandler := by
    rw [hurl]
    rfl
  obtain ⟨r, hr, -, -, hbody⟩ := parsed_createHttpResponse (healthBody clock.ticks) _ json_no_CR
  refine ⟨?_, ⟨r, hr, hbody⟩, timestampField_healthBody _, ?_⟩
  · rw [handleClient_bytes routes clock _ hne, hreq, respond_found clock _ healthHandler hfind,
      hurl]
    rfl
  · rw [timestampField_healthBody]
    exact isPositiveInteger_to_string _

set_option maxRecDepth 100000 in
/-- Counterexample to C8 as stated: with the clock at the epoch the reading is
`0`, the timestamp field of the health body is `0`, and that is not a positive
integer; one tick before the epoch the field is `-1`. -/
theorem health_timestamp_counterexample :
    handleClient routes epochClock (Incoming.bytes (utf8 "GET /api/health HTTP/1.1"))
        = [Event.stdout (utf8 "[1970-01-01 00:00:00] GET /api/health\n"),
            Event.send (createHttpResponse
              (utf8 "\x7b\"status\":\"healthy\",\"server\":\"Simple C++ HTTP Server\",\"timestamp\":0,\"uptime\":\"running\"\x7d")
              (utf8 "application/json")),
            Event.close]
      ∧ timestampField
          (utf8 "\x7b\"status\":\"healthy\",\"server\":\"Simple C++ HTTP Server\",\"timestamp\":0,\"uptime\":\"running\"\x7d")
        = utf8 "0"
      ∧ isPositiveInteger (utf8 "0") = false
      ∧ healthHandler ⟨[], [], -1⟩ (utf8 "GET /api/health HTTP/1.1")
        = utf8 "\x7b\"status\":\"healthy\",\"server\":\"Simple C++ HTTP Server\",\"timestamp\":-1,\"uptime\":\"running\"\x7d"
      ∧ isPositiveInteger (utf8 "-1") = false := by
  decide

/-- C9: the response depends on the path and the clock only. Two non-empty
reads whose requests have the same parsed path are, under the same clock
readings, answered with the same bytes and logged with the same line, whatever
their method, version, headers and body are; the log line says `GET` in every
case. -/
theorem response_depends_on_path_only (clock : Clock) (d1 d2 : ByteString)
    (h1 : d1 ≠ []) (h2 : d2 ≠ [])
    (hp : parseUrl (requestOf (Incoming.bytes d1)) = parseUrl (requestOf (Incoming.bytes d2))) :
    handleClient routes clock (Incoming.bytes d1) = handleClient routes clock (Incoming.bytes d2)
      ∧ ∃ body ctype, handleClient routes clock (Incoming.bytes d1)
          = [Event.stdout (utf8 "[" ++ clock.logTime ++ utf8 "] GET "
                ++ parseUrl (requestOf (Incoming.bytes d2)) ++ utf8 "\n"),
              Event.send (createHttpResponse body ctype),
              Event.close] := by
  constructor
  · rw [handleClient_bytes routes clock d1 h1, handleClient_bytes routes clock d2 h2,
      respond_congr clock _ _ hp]
  · obtain ⟨body, ctype, hr⟩ := respond_shape routes clock (requestOf (Incoming.bytes d1))
    refine ⟨body, ctype, ?_⟩
    rw [handleClient_bytes routes clock d1 h1, hr, hp]
    rfl

set_option maxRecDepth 100000 in
/-- Witness of C9: `POST /about X` is answered and logged like
`GET /about HTTP/1.1`. -/
theorem response_depends_on_path_only_witness :
    parseUrl (requestOf (Incoming.bytes (utf8 "POST /about X"))) = utf8 "/about"
      ∧ parseUrl (requestOf (Incoming.bytes (utf8 "GET /about HTTP/1.1"))) = utf8 "/about"
      ∧ handleClient routes sampleClock (Incoming.bytes (utf8 "POST /about X"))
        = handleClient routes sampleClock (Incoming.bytes (utf8 "GET /about HTTP/1.1"))
      ∧ ∃ body ctype, handleClient routes sampleClock (Incoming.bytes (utf8 "POST /about X"))
          = [Event.stdout (utf8 "[" ++ sampleClock.logTime ++ utf8 "] GET "
                ++ parseUrl (requestOf (Incoming.bytes (utf8 "GET /about HTTP/1.1")))
                ++ utf8 "\n"),
              Event.send (createHttpResponse body ctype),
              Event.close] :=
  ⟨by decide, by decide,
    response_depends_on_path_only sampleClock (utf8 "POST /about X") (utf8 "GET /about HTTP/1.1")
      (by decide) (by decide) (by decide)⟩

/-- C10: for every read that returns `n > 0` bytes into the zero-initialised
buffer of 4096 bytes, `n` is at most 4095 and the request string is the longest
prefix of those `n` bytes without a NUL, so it is never longer than 4095 bytes;
a read whose first byte is NUL gives the empty request, the empty path, and
still the not-found response. -/
theorem request_is_nul_cut (clock : Clock) (client_socket : Incoming)
    (hpos : (receive client_socket).1 > 0) :
    (receive client_socket).1 ≤ 4095
      ∧ (receive client_socket).2.length = 4096
      ∧ requestOf client_socket
        = ((receive client_socket).2.take (receive client_socket).1.toNat).takeWhile
            (fun b => b != 0)
      ∧ (0 : UInt8) ∉ requestOf client_socket
      ∧ ((receive client_socket).2.take (receive client_socket).1.toNat
            = requestOf client_socket
          ∨ ∃ rest, (receive client_socket).2.take (receive client_socket).1.toNat
            = requestOf client_socket ++ 0 :: rest)
      ∧ (requestOf client_socket).length ≤ 4095
      ∧ ((receive client_socket).2.head? = some 0 →
          requestOf client_socket = []
            ∧ parseUrl (requestOf client_socket) = []
            ∧ handleClient routes clock client_socket
              = [Event.stdout (logLine clock []),
                  Event.send (createHttpResponse (notFoundBody []) (utf8 "text/html")),
                  Event.close]) := by
  obtain ⟨data, hdata, rfl⟩ := receive_pos_bytes client_socket hpos
  have hlen : (data.take 4095).length ≤ 4095 := by simp [List.length_take]
  have htake : (receive (Incoming.bytes data)).2.take (receive (Incoming.bytes data)).1.toNat
      = data.take 4095 := by
    rw [receive_bytes]
    simp only [Int.toNat_ofNat]
    exact List.take_left' rfl
  have hreq := requestOf_bytes data
  have hle : (requestOf (Incoming.bytes data)).length ≤ 4095 := by
    rw [hreq]
    have hpre : (data.take 4095).takeWhile (fun b => b != 0) <+: data.take 4095 :=
      List.takeWhile_prefix _
    exact le_trans hpre.length_le hlen
  refine ⟨?_, ?_, ?_, ?_, ?_, hle, ?_⟩
  · rw [receive_bytes]
    show (((data.take 4095).length : Nat) : Int) ≤ 4095
    omega
  · rw [receive_bytes]
    simp only [List.length_append, List.length_replicate]
    omega
  · rw [htake, hreq]
  · rw [hreq]
    exact takeWhile_nul_free _
  · rw [htake, hreq]
    exact takeWhile_nul_cut _
  · intro hhead
    have hnil : requestOf (Incoming.bytes data) = [] := by
      rw [hreq]
      rw [receive_bytes] at hhead
      cases hd : data.take 4095 with
      | nil => rfl
      | cons x xs =>
        rw [hd] at hhead
        simp only [List.cons_append, List.head?_cons, Option.some.injEq] at hhead
        subst hhead
        rfl
    refine ⟨hnil, by rw [hnil]; exact parseUrl_nil, ?_⟩
    have hfind : routes.find (parseUrl []) = none := by rw [parseUrl_nil]; exact find_nil
    rw [handleClient_bytes routes clock data hdata, hnil, respond_not_found clock [] hfind,
      parseUrl_nil]
    rfl

set_option maxRecDepth 100000 in
/-- Witness of C10: a read whose first byte is NUL. -/
theorem request_is_nul_cut_witness :
    (receive (Incoming.bytes (0 :: utf8 "GET / HTTP/1.1"))).1 > 0
      ∧ (receive (Incoming.bytes (0 :: utf8 "GET / HTTP/1.1"))).2.head? = some 0
      ∧ requestOf (Incoming.bytes (0 :: utf8 "GET / HTTP/1.1")) = []
      ∧ parseUrl (requestOf (Incoming.bytes (0 :: utf8 "GET / HTTP/1.1"))) = []
      ∧ handleClient routes sampleClock (Incoming.bytes (0 :: utf8 "GET / HTTP/1.1"))
        = [Event.stdout (logLine sampleClock []),
            Event.send (createHttpResponse (notFoundBody []) (utf8 "text/html")),
            Event.close] :=
  ⟨by decide, by decide,
    (request_is_nul_cut sampleClock (Incoming.bytes (0 :: utf8 "GET / HTTP/1.1"))
      (by decide)).2.2.2.2.2.2 (by decide)⟩

end SimpleHttpServer
